import Mathlib

/-!
Shallow embedding of the qbit-checker torrent selection engine
(src/qbit_checker.py and src/check_and_make_disk_space.py) and proofs of the
specified properties of its filter pipeline, ranking strategies, selection
algorithm and driver.

Modelling conventions:
- A torrent record is the fixed record type `Torrent`; the fields are the
  attributes the code reads.  Tracker entries (dicts with a "url" key in the
  code) are modelled as their URL strings.
- Python integers are Nat where the data model guarantees non-negativity
  (size, seeding_time) and Int elsewhere (deficits may be negative); the
  float ratio and float scores are modelled as rationals.
- Python sets are modelled as `Finset String` (or membership in a list where
  the code only tests membership); truthiness of a set is its nonemptiness.
- Python str.split / str.strip are re-implemented structurally over the
  character list so that concrete instances evaluate in the kernel.
- I/O boundaries (the qBittorrent API, disk usage) are cut at the data they
  return: each I/O-performing method is embedded as the pure function from
  fetched data to the data it produces, and a delete call is reified as a
  `DeleteRequest` value.
-/

namespace QbitChecker

/-- A torrent record, as the code reads it: hash, name, size in bytes,
lifecycle state, comma-joined tag string, tracker URLs, share ratio,
seeding duration in seconds and completion timestamp. -/
structure Torrent where
  hash : String
  name : String
  size : Nat
  state : String
  tags : String
  trackers : List String
  ratio : ℚ
  seeding_time : Nat
  completion_on : Int
deriving DecidableEq, Repr

/-- Python str.split(sep) for a one-character separator: splits on every
occurrence, keeping empty pieces; on the empty string it yields [""], as in
Python. -/
def pySplit (sep : Char) (s : String) : List String :=
  (s.data.splitOn sep).map (fun cs => String.mk cs)

/-- Python str.strip(): drops whitespace from both ends of the string. -/
def pyStrip (s : String) : String :=
  String.mk (((s.data.dropWhile Char.isWhitespace).reverse.dropWhile
    Char.isWhitespace).reverse)

/-- The tag set a record's comma-joined tag string parses to; mirrors the
expression set(tag.strip() for tag in t.tags.split(",")) used by
TorrentFilterBuilder.with_tags / without_tags (src/qbit_checker.py lines
136-150) and QBitClient.get_eligible_torrents (lines 49-57). -/
def parseTags (s : String) : Finset String :=
  ((pySplit ',' s).map pyStrip).toFinset

/-- Python's substring test sub in hay. -/
def strContains (hay sub : String) : Bool :=
  (List.range (hay.data.length + 1)).any
    (fun i => (hay.data.drop i).take sub.data.length == sub.data)

/-- QBitClient._FINISHED_STATES (src/qbit_checker.py lines 11-17);
"uploading" is commented out in the source. -/
def FINISHED_STATES : List String := ["stalledUP", "pausedUP", "checkingUP", "forcedUP"]

/-- QBitClient.get_finished_torrents (src/qbit_checker.py lines 27-37),
applied to the snapshot returned by the client API. -/
def get_finished_torrents (all_torrents : List Torrent) : List Torrent :=
  all_torrents.filter (fun t => FINISHED_STATES.contains t.state)

/-- QBitClient.get_eligible_torrents (src/qbit_checker.py lines 39-70),
applied to the fetched snapshot: finished torrents, minus those whose tag
set intersects the excluded tags, minus those whose tracker URL set
intersects the excluded trackers.  A Python falsy argument (None or the
empty list) skips the corresponding stage, modelled by the isEmpty tests. -/
def get_eligible_torrents (all_torrents : List Torrent)
    (exclude_tags : List String) (exclude_trackers : List String) : List Torrent :=
  let candidates := get_finished_torrents all_torrents
  let candidates :=
    if exclude_tags.isEmpty then candidates
    else candidates.filter
      (fun t => !(decide (parseTags (Torrent.tags t) ∩ exclude_tags.toFinset).Nonempty))
  if exclude_trackers.isEmpty then candidates
  else candidates.filter
    (fun t => !(decide ((Torrent.trackers t).toFinset ∩ exclude_trackers.toFinset).Nonempty))

/-- Total size of a list of torrents: sum(t.size for t in torrents)
(src/qbit_checker.py line 85). -/
def sizeSum (torrents : List Torrent) : Nat :=
  (torrents.map Torrent.size).sum

/-- The accumulation loop of select_torrents_for_cleanup
(src/qbit_checker.py lines 92-101): walk the sorted list; before adding each
candidate test whether the space freed so far already meets the target, and
stop there if so; otherwise add the candidate and add its size to the total
freed. -/
def selectLoop (space_to_free_bytes : Int) (space_freed : Int) :
    List Torrent → List Torrent
  | [] => []
  | t :: rest =>
    if space_freed ≥ space_to_free_bytes then []
    else t :: selectLoop space_to_free_bytes (space_freed + (Torrent.size t : Int)) rest

/-- QBitClient.select_torrents_for_cleanup (src/qbit_checker.py lines
72-101): if the candidates' total size cannot cover the target, return the
empty list; otherwise order the candidates by the strategy and greedily
accumulate them with selectLoop. -/
def select_torrents_for_cleanup (torrents : List Torrent)
    (space_to_free_bytes : Int) (strategy : List Torrent → List Torrent) :
    List Torrent :=
  if (sizeSum torrents : Int) < space_to_free_bytes then []
  else selectLoop space_to_free_bytes 0 (strategy torrents)

/-- A batch delete request to the qBittorrent API, as issued by
torrents_delete (src/qbit_checker.py lines 114-116). -/
structure DeleteRequest where
  torrent_hashes : List String
  delete_files : Bool
deriving DecidableEq, Repr

/-- QBitClient.remove_torrents (src/qbit_checker.py lines 103-116): with an
empty torrent list it returns without calling the API (none); otherwise it
issues one batch delete request carrying the torrents' hashes. -/
def remove_torrents (torrents : List Torrent) (delete_files : Bool) :
    Option DeleteRequest :=
  if torrents.isEmpty then none
  else some (DeleteRequest.mk (torrents.map Torrent.hash) delete_files)

/-- TorrentFilterBuilder (src/qbit_checker.py lines 119-189): holds the
input collection and the accumulated list of predicates. -/
structure TorrentFilterBuilder where
  torrents : List Torrent
  filters : List (Torrent → Bool)

/-- TorrentFilterBuilder.__init__ (src/qbit_checker.py lines 122-124):
starts with the given torrents and no filters. -/
def TorrentFilterBuilder.init (torrents : List Torrent) : TorrentFilterBuilder :=
  TorrentFilterBuilder.mk torrents []

/-- The common shape of every with* method: append one predicate to the
filter list and return the builder (self._filters.append(...); return self). -/
def TorrentFilterBuilder.addFilter (b : TorrentFilterBuilder)
    (f : Torrent → Bool) : TorrentFilterBuilder :=
  TorrentFilterBuilder.mk b.torrents (b.filters ++ [f])

/-- with_states (src/qbit_checker.py lines 126-128): t.state in states. -/
def TorrentFilterBuilder.with_states (b : TorrentFilterBuilder)
    (states : List String) : TorrentFilterBuilder :=
  b.addFilter (fun t => states.contains t.state)

/-- with_tracker_containing (lines 130-134): any tracker URL contains the
substring. -/
def TorrentFilterBuilder.with_tracker_containing (b : TorrentFilterBuilder)
    (substring : String) : TorrentFilterBuilder :=
  b.addFilter (fun t => (Torrent.trackers t).any (fun url => strContains url substring))

/-- with_tags (lines 136-141): the given tag set intersects the record's
parsed tag set (Python set truthiness of the intersection). -/
def TorrentFilterBuilder.with_tags (b : TorrentFilterBuilder)
    (tags : List String) : TorrentFilterBuilder :=
  b.addFilter (fun t => decide (tags.toFinset ∩ parseTags (Torrent.tags t)).Nonempty)

/-- without_tags (lines 143-150): the given tag set does not intersect the
record's parsed tag set. -/
def TorrentFilterBuilder.without_tags (b : TorrentFilterBuilder)
    (tags : List String) : TorrentFilterBuilder :=
  b.addFilter (fun t => !(decide (tags.toFinset ∩ parseTags (Torrent.tags t)).Nonempty))

/-- with_size_greater_than (lines 152-154). -/
def TorrentFilterBuilder.with_size_greater_than (b : TorrentFilterBuilder)
    (size_bytes : Nat) : TorrentFilterBuilder :=
  b.addFilter (fun t => decide (t.size > size_bytes))

/-- with_size_less_than (lines 156-158). -/
def TorrentFilterBuilder.with_size_less_than (b : TorrentFilterBuilder)
    (size_bytes : Nat) : TorrentFilterBuilder :=
  b.addFilter (fun t => decide (t.size < size_bytes))

/-- completed_before (lines 160-162). -/
def TorrentFilterBuilder.completed_before (b : TorrentFilterBuilder)
    (timestamp : Int) : TorrentFilterBuilder :=
  b.addFilter (fun t => decide (t.completion_on < timestamp))

/-- completed_after (lines 164-166). -/
def TorrentFilterBuilder.completed_after (b : TorrentFilterBuilder)
    (timestamp : Int) : TorrentFilterBuilder :=
  b.addFilter (fun t => decide (t.completion_on > timestamp))

/-- with_ratio_greater_than (lines 168-170). -/
def TorrentFilterBuilder.with_ratio_greater_than (b : TorrentFilterBuilder)
    (threshold : ℚ) : TorrentFilterBuilder :=
  b.addFilter (fun t => decide (Torrent.ratio t > threshold))

/-- seeding_time_greater_than (lines 172-174). -/
def TorrentFilterBuilder.seeding_time_greater_than (b : TorrentFilterBuilder)
    (seconds : Nat) : TorrentFilterBuilder :=
  b.addFilter (fun t => decide (t.seeding_time > seconds))

/-- seeding_time_less_than (lines 176-178). -/
def TorrentFilterBuilder.seeding_time_less_than (b : TorrentFilterBuilder)
    (seconds : Nat) : TorrentFilterBuilder :=
  b.addFilter (fun t => decide (t.seeding_time < seconds))

/-- build (src/qbit_checker.py lines 180-189): with no filters, return the
stored collection itself; otherwise return the records on which every
accumulated predicate holds. -/
def TorrentFilterBuilder.build (b : TorrentFilterBuilder) : List Torrent :=
  if b.filters.isEmpty then b.torrents
  else b.torrents.filter (fun t => b.filters.all (fun f => f t))

/-- strategy_smallest_first (src/qbit_checker.py lines 195-197): stable sort
ascending by size, as Python's sorted with key=t.size. -/
def strategy_smallest_first (torrents : List Torrent) : List Torrent :=
  torrents.mergeSort (fun a b => decide (a.size ≤ b.size))

/-- The sort key of strategy_score_by_seeding_time (src/qbit_checker.py
lines 206-212): (seeding_time / 86400) / (size / 1024^3) when size > 0,
else 0.  Python float arithmetic is modelled exactly over the rationals. -/
def score (t : Torrent) : ℚ :=
  if t.size > 0 then ((t.seeding_time : ℚ) / 86400) / ((t.size : ℚ) / 1024 ^ 3)
  else 0

/-- strategy_score_by_seeding_time (src/qbit_checker.py lines 200-212):
stable sort by the score, highest first (sorted with reverse=True). -/
def strategy_score_by_seeding_time (torrents : List Torrent) : List Torrent :=
  torrents.mergeSort (fun a b => decide (score b ≤ score a))

/-- A JSON-like configuration value, the shape Config._config takes after
json.load (src/qbit_checker.py lines 215-263). -/
inductive JsonValue where
  | null : JsonValue
  | bool (val : Bool) : JsonValue
  | num (val : Int) : JsonValue
  | str (val : String) : JsonValue
  | arr (items : List JsonValue) : JsonValue
  | obj (entries : List (String × JsonValue)) : JsonValue

/-- Dictionary lookup of one key inside a JSON object's entry list. -/
def lookupEntries : List (String × JsonValue) → String → Option JsonValue
  | [], _ => none
  | e :: rest, key => if e.1 = key then some e.2 else lookupEntries rest key

/-- One step value[key] of Config.get: succeeds only on an object holding
the key; everything else is the KeyError/TypeError branch. -/
def JsonValue.lookup : JsonValue → String → Option JsonValue
  | JsonValue.obj entries, key => lookupEntries entries key
  | _, _ => none

/-- Config.get (src/qbit_checker.py lines 251-263): split the dotted key
path and walk the nested document, with none as the default on any
KeyError/TypeError. -/
def configGet (config : JsonValue) (key_path : String) : Option JsonValue :=
  (pySplit '.' key_path).foldl
    (fun acc key => acc.bind (fun v => JsonValue.lookup v key)) (some config)

/-- The filter criteria the driver hands to the pipeline: eligible states,
minimum seeding age in seconds, excluded tags. -/
structure FilterCriteria where
  states : List String
  minSeedingTime : Nat
  excludeTags : List String
deriving DecidableEq, Repr

/-- The criteria main uses (src/check_and_make_disk_space.py lines 85-89),
as a function of the loaded configuration: the source binds the three
literals directly — with the config object in scope it never consults it
for any of them, so this function is constant in its argument. -/
def mainFilterCriteria (_config : JsonValue) : FilterCriteria :=
  FilterCriteria.mk ["stalledUP", "pausedUP", "checkingUP", "forcedUP"]
    (3 * 24 * 60 * 60) ["permaseed", "keep"]

/-- Modelled from the spec: missing from the code is any configuration
schema for the filter criteria (src never reads them from the Config).
Spec section 6 says the configuration "determines ... the set of states
considered finished/eligible, the minimum seeding-age threshold, and the
list of tags/trackers to exclude" through get(dotted_key_path); since
neither spec nor code fixes the key paths, a representative dotted key is
used for the excluded-tags list. -/
def configDeterminedExcludeTags (config : JsonValue) : Option (List String) :=
  match configGet config "filters.exclude_tags" with
  | some (JsonValue.arr items) =>
    some (items.filterMap (fun v =>
      match v with
      | JsonValue.str s => some s
      | _ => none))
  | _ => none

/-- The filtering stage of main (src/check_and_make_disk_space.py lines
96-103): builder over the snapshot, with_states, seeding_time_greater_than,
without_tags, build. -/
def mainFilteredTorrents (config : JsonValue) (all_torrents : List Torrent) :
    List Torrent :=
  ((((TorrentFilterBuilder.init all_torrents).with_states
    (FilterCriteria.states (mainFilterCriteria config))).seeding_time_greater_than
    (FilterCriteria.minSeedingTime (mainFilterCriteria config))).without_tags
    (FilterCriteria.excludeTags (mainFilterCriteria config))).build

/-- The delete step of main (src/check_and_make_disk_space.py lines
116-127): an empty selection exits before any removal (none); otherwise
remove_torrents is called with delete_files=True. -/
def mainIssueDelete (torrents_to_remove : List Torrent) : Option DeleteRequest :=
  if torrents_to_remove.isEmpty then none
  else remove_torrents torrents_to_remove true

/-- A concrete torrent with an empty tag string, for witnesses and
counterexamples. -/
def wEmptyTags : Torrent :=
  Torrent.mk "h1" "t1" 5 "stalledUP" "" [] 0 0 0

/-- A concrete size-zero torrent. -/
def wZeroSize : Torrent :=
  Torrent.mk "h2" "t2" 0 "pausedUP" "keep, other" [] 0 86400 0

/-- A concrete configuration that sets the representative excluded-tags key
to ["foo"]. -/
def wConfig : JsonValue :=
  JsonValue.obj [("filters", JsonValue.obj [("exclude_tags",
    JsonValue.arr [JsonValue.str "foo"])])]

/-! ## Helper lemmas -/

theorem sizeSum_nil : sizeSum [] = 0 := rfl

theorem sizeSum_cons (t : Torrent) (l : List Torrent) :
    sizeSum (t :: l) = Torrent.size t + sizeSum l := by
  simp [sizeSum]

theorem sizeSum_perm {l1 l2 : List Torrent} (h : l1.Perm l2) :
    sizeSum l1 = sizeSum l2 :=
  (h.map Torrent.size).sum_eq

/-- Correctness of the accumulation loop, with the space already freed as a
parameter: if the target is reachable from the remaining candidates, the
loop takes an initial segment of the list, reaches the target with it, and
no strictly shorter initial segment reaches the target. -/
theorem selectLoop_correct (d : Int) :
    ∀ (l : List Torrent) (f : Int), d ≤ f + (sizeSum l : Int) →
      selectLoop d f l = l.take (selectLoop d f l).length ∧
      d ≤ f + (sizeSum (selectLoop d f l) : Int) ∧
      ∀ j, j < (selectLoop d f l).length → f + (sizeSum (l.take j) : Int) < d := by
  intro l
  induction l with
  | nil =>
    intro f h
    refine ⟨rfl, ?_, ?_⟩
    · simpa [selectLoop, sizeSum] using h
    · intro j hj
      simp [selectLoop] at hj
  | cons t rest ih =>
    intro f h
    by_cases hf : f ≥ d
    · have heq : selectLoop d f (t :: rest) = [] := by
        simp [selectLoop, hf]
      rw [heq]
      refine ⟨rfl, ?_, ?_⟩
      · simpa [sizeSum] using hf
      · intro j hj
        simp at hj
    · have heq : selectLoop d f (t :: rest) =
          t :: selectLoop d (f + (Torrent.size t : Int)) rest := by
        simp [selectLoop, hf]
      have h' : d ≤ (f + (Torrent.size t : Int)) + (sizeSum rest : Int) := by
        rw [sizeSum_cons] at h
        push_cast at h ⊢
        linarith
      obtain ⟨ih1, ih2, ih3⟩ := ih (f + (Torrent.size t : Int)) h'
      rw [heq]
      refine ⟨?_, ?_, ?_⟩
      · rw [List.length_cons, List.take_succ_cons]
        exact congrArg (List.cons t) ih1
      · rw [sizeSum_cons]
        push_cast
        linarith
      · intro j hj
        rw [List.length_cons] at hj
        match j with
        | 0 =>
          simp [sizeSum]
          exact lt_of_not_ge hf
        | Nat.succ j' =>
          rw [List.take_succ_cons, sizeSum_cons]
          have hlt := ih3 j' (by omega)
          push_cast
          push_cast at hlt
          linarith

theorem sizeSum_pos_ne_nil {l : List Torrent} (h : 0 < (sizeSum l : Int)) :
    l ≠ [] := by
  intro hnil
  rw [hnil] at h
  simp [sizeSum] at h

/-! ## Claims -/

/-- C1, counterexample: with candidates of total size 5 and deficit 0 the
total size is at least the deficit and the identity ranking is a permutation,
yet select_torrents_for_cleanup returns the empty list, so the returned
selection is not a non-empty initial segment as the claim states. -/
theorem C1_counterexample :
    (0 : Int) ≤ (sizeSum [wEmptyTags] : Int) ∧
    select_torrents_for_cleanup [wEmptyTags] 0 id = [] := by
  refine ⟨by decide, by decide⟩

/-- C1 (amended): for every candidate list whose total size is at least the
deficit, every POSITIVE deficit, and every ranking strategy (a permutation
of its input), select_torrents_for_cleanup returns a non-empty initial
segment of the strategy-ordered sequence (no element skipped) whose total
size is at least the deficit, and it is the shortest such segment: every
strictly shorter initial segment falls short of the deficit. -/
theorem C1_selection_shortest_reaching_initial_segment
    (torrents : List Torrent) (space_to_free_bytes : Int)
    (strategy : List Torrent → List Torrent)
    (hperm : (strategy torrents).Perm torrents)
    (hpos : 0 < space_to_free_bytes)
    (htotal : space_to_free_bytes ≤ (sizeSum torrents : Int)) :
    select_torrents_for_cleanup torrents space_to_free_bytes strategy ≠ [] ∧
    select_torrents_for_cleanup torrents space_to_free_bytes strategy =
      (strategy torrents).take
        (select_torrents_for_cleanup torrents space_to_free_bytes strategy).length ∧
    space_to_free_bytes ≤
      (sizeSum (select_torrents_for_cleanup torrents space_to_free_bytes strategy) : Int) ∧
    ∀ j, j < (select_torrents_for_cleanup torrents space_to_free_bytes strategy).length →
      (sizeSum ((strategy torrents).take j) : Int) < space_to_free_bytes := by
  have hsum : sizeSum (strategy torrents) = sizeSum torrents := sizeSum_perm hperm
  have hsel : select_torrents_for_cleanup torrents space_to_free_bytes strategy =
      selectLoop space_to_free_bytes 0 (strategy torrents) := by
    unfold select_torrents_for_cleanup
    rw [if_neg (not_lt.mpr htotal)]
  have hreach : space_to_free_bytes ≤ 0 + (sizeSum (strategy torrents) : Int) := by
    rw [hsum]
    linarith
  obtain ⟨h1, h2, h3⟩ := selectLoop_correct space_to_free_bytes (strategy torrents) 0 hreach
  have hne : selectLoop space_to_free_bytes 0 (strategy torrents) ≠ [] := by
    have hpos' : 0 < (sizeSum (strategy torrents) : Int) := by
      rw [hsum]
      linarith
    obtain ⟨t, rest, hcons⟩ := List.exists_cons_of_ne_nil (sizeSum_pos_ne_nil hpos')
    rw [hcons]
    simp [selectLoop, not_le.mpr hpos]
  rw [hsel]
  refine ⟨hne, h1, ?_, ?_⟩
  · linarith [h2]
  · intro j hj
    have := h3 j hj
    linarith

/-- C1 witness: on one candidate of size 5 with deficit 3 and the identity
ranking, the selection is the non-empty shortest reaching initial segment. -/
theorem C1_selection_shortest_reaching_initial_segment_witness :
    select_torrents_for_cleanup [wEmptyTags] 3 id ≠ [] ∧
    select_torrents_for_cleanup [wEmptyTags] 3 id =
      (id [wEmptyTags]).take (select_torrents_for_cleanup [wEmptyTags] 3 id).length ∧
    (3 : Int) ≤ (sizeSum (select_torrents_for_cleanup [wEmptyTags] 3 id) : Int) ∧
    ∀ j, j < (select_torrents_for_cleanup [wEmptyTags] 3 id).length →
      (sizeSum ((id [wEmptyTags]).take j) : Int) < 3 :=
  C1_selection_shortest_reaching_initial_segment [wEmptyTags] 3 id
    (List.Perm.refl _) (by decide) (by decide)

/-- C2: for every candidate list and every positive deficit, if the total
candidate size is strictly below the deficit, the selection is empty,
whatever the ranking strategy (src/qbit_checker.py lines 84-87). -/
theorem C2_insufficient_total_selects_nothing (torrents : List Torrent)
    (space_to_free_bytes : Int) (strategy : List Torrent → List Torrent)
    (_hpos : 0 < space_to_free_bytes)
    (h : (sizeSum torrents : Int) < space_to_free_bytes) :
    select_torrents_for_cleanup torrents space_to_free_bytes strategy = [] := by
  unfold select_torrents_for_cleanup
  rw [if_pos h]

/-- C2 witness: candidates of total size 5, deficit 10, empty selection. -/
theorem C2_insufficient_total_selects_nothing_witness :
    select_torrents_for_cleanup [wEmptyTags] 10 id = [] :=
  C2_insufficient_total_selects_nothing [wEmptyTags] 10 id (by decide) (by decide)

/-- C9: for every candidate list and every deficit at most zero, the
selection is empty: the loop guard space_freed >= space_to_free_bytes
already holds at space_freed = 0, so the loop stops before adding any
candidate (src/qbit_checker.py lines 92-101). -/
theorem C9_nonpositive_deficit_selects_nothing (torrents : List Torrent)
    (space_to_free_bytes : Int) (strategy : List Torrent → List Torrent)
    (h : space_to_free_bytes ≤ 0) :
    select_torrents_for_cleanup torrents space_to_free_bytes strategy = [] := by
  unfold select_torrents_for_cleanup
  rw [if_neg]
  · cases hl : strategy torrents with
    | nil => simp [selectLoop]
    | cons t rest => simp [selectLoop, h]
  · have hnn : 0 ≤ (sizeSum torrents : Int) := Int.natCast_nonneg _
    omega

/-- C9 witness: a non-empty candidate list with deficit 0 selects nothing. -/
theorem C9_nonpositive_deficit_selects_nothing_witness :
    select_torrents_for_cleanup [wEmptyTags] 0 id = [] :=
  C9_nonpositive_deficit_selects_nothing [wEmptyTags] 0 id (by decide)

/-- C3, counterexample: the code splits the tag string naively, so a record
with an empty tag string gets the tag set containing the empty string, not
the empty set; with given tags [""] that record is matched by with_tags and
rejected by without_tags, i.e. it does intersect a given tag set via a tag
whose text is empty. -/
theorem C3_counterexample :
    parseTags (Torrent.tags wEmptyTags) ≠ (∅ : Finset String) ∧
    parseTags (Torrent.tags wEmptyTags) = {""} ∧
    ((TorrentFilterBuilder.init [wEmptyTags]).with_tags [""]).build = [wEmptyTags] ∧
    ((TorrentFilterBuilder.init [wEmptyTags]).without_tags [""]).build = [] := by
  refine ⟨by decide, by decide, by decide, by decide⟩

/-- C3 (amended): for every torrent record whose tag string is empty, the
tag set constructed by the tag predicates is the singleton containing the
empty string, and it intersects a given tag set exactly when that set
contains the empty string. -/
theorem C3_empty_tag_string_singleton (t : Torrent) (h : Torrent.tags t = "")
    (given : List String) :
    parseTags (Torrent.tags t) = {""} ∧
    ((given.toFinset ∩ parseTags (Torrent.tags t)).Nonempty ↔ "" ∈ given) := by
  rw [h]
  have hp : parseTags "" = {""} := by decide
  rw [hp]
  refine ⟨rfl, ?_, ?_⟩
  · rintro ⟨x, hx⟩
    rw [Finset.mem_inter, Finset.mem_singleton] at hx
    rcases hx with ⟨hx1, hx2⟩
    rw [hx2] at hx1
    exact List.mem_toFinset.mp hx1
  · intro hmem
    exact ⟨"", Finset.mem_inter.mpr
      ⟨List.mem_toFinset.mpr hmem, Finset.mem_singleton_self _⟩⟩

/-- C3 witness: the record with empty tag string against the given tag set
[""]: the parsed set is the singleton of the empty string and the
intersection is non-empty since "" is in the given set. -/
theorem C3_empty_tag_string_singleton_witness :
    parseTags (Torrent.tags wEmptyTags) = {""} ∧
    ((([""] : List String).toFinset ∩ parseTags (Torrent.tags wEmptyTags)).Nonempty ↔
      "" ∈ ([""] : List String)) :=
  C3_empty_tag_string_singleton wEmptyTags rfl [""]

/-- C5: adding predicates P1 then P2 to a builder yields the same build()
result as adding P2 then P1 — all with* methods just append to the filter
list and build() takes the conjunction, which is commutative
(src/qbit_checker.py lines 180-189). -/
theorem C5_build_order_independent (b : TorrentFilterBuilder)
    (p1 p2 : Torrent → Bool) :
    ((b.addFilter p1).addFilter p2).build = ((b.addFilter p2).addFilter p1).build := by
  unfold TorrentFilterBuilder.build TorrentFilterBuilder.addFilter
  rw [if_neg (by simp), if_neg (by simp)]
  apply List.filter_congr
  intro x _
  simp [List.all_append, Bool.and_comm, Bool.and_left_comm, Bool.and_assoc]

/-- C6: build() on a builder with no predicates returns the input
collection itself, and build() is pure on the embedded builder value, so
repeated calls without changes return identical results and the stored
collection is untouched (src/qbit_checker.py lines 180-189). -/
theorem C6_build_identity_and_idempotent (torrents : List Torrent)
    (b : TorrentFilterBuilder) :
    (TorrentFilterBuilder.init torrents).build = torrents ∧
    TorrentFilterBuilder.torrents (TorrentFilterBuilder.init torrents) = torrents ∧
    b.build = b.build :=
  ⟨rfl, rfl, rfl⟩

/-- C10: build() returns a sublist of the input collection — only input
records, each at most as often as in the input, in the input's relative
order: the no-filter branch returns the input itself and the other branch
is a List.filter (src/qbit_checker.py lines 180-189). -/
theorem C10_build_sublist (b : TorrentFilterBuilder) :
    List.Sublist b.build b.torrents := by
  unfold TorrentFilterBuilder.build
  split
  · exact List.Sublist.refl _
  · exact List.filter_sublist _

/-- C7: strategy_score_by_seeding_time returns a permutation of its input
that is sorted in descending score order, where the score of a record is
(seeding_time / 86400) / (size / 1024^3) and a record of size 0 scores 0;
score is a total function into the rationals, so no division-by-zero error
or infinity arises (src/qbit_checker.py lines 200-212). -/
theorem C7_score_strategy_descending (torrents : List Torrent) :
    (strategy_score_by_seeding_time torrents).Perm torrents ∧
    List.Pairwise (fun a b => score b ≤ score a)
      (strategy_score_by_seeding_time torrents) ∧
    ∀ t : Torrent, t.size = 0 → score t = 0 := by
  refine ⟨List.mergeSort_perm torrents _, ?_, ?_⟩
  · have h : List.Pairwise
        (fun a b : Torrent => decide (score b ≤ score a) = true)
        (strategy_score_by_seeding_time torrents) := by
      unfold strategy_score_by_seeding_time
      apply List.sorted_mergeSort
      · intro a b c hab hbc
        simp only [decide_eq_true_eq] at hab hbc ⊢
        exact le_trans hbc hab
      · intro a b
        simp only [Bool.or_eq_true, decide_eq_true_eq]
        exact le_total (score b) (score a)
    exact h.imp (fun hab => by simpa using hab)
  · intro t ht
    simp [score, ht]

/-- C7 witness: on a singleton list holding a size-zero record, the
strategy permutes the list and the record's score is 0. -/
theorem C7_score_strategy_descending_witness :
    (strategy_score_by_seeding_time [wZeroSize]).Perm [wZeroSize] ∧
    score wZeroSize = 0 :=
  ⟨(C7_score_strategy_descending [wZeroSize]).1,
    (C7_score_strategy_descending [wZeroSize]).2.2 wZeroSize rfl⟩

/-- C8: with an empty torrent list, remove_torrents issues no delete
request whatever the delete_files flag, and the driver's delete step issues
no request for an empty selection either (src/qbit_checker.py lines
103-116, src/check_and_make_disk_space.py lines 116-127). -/
theorem C8_empty_selection_no_delete :
    (∀ (delete_files : Bool), remove_torrents [] delete_files = none) ∧
    mainIssueDelete [] = none :=
  ⟨fun _ => rfl, rfl⟩

/-- C4, counterexample: a configuration that determines the excluded-tags
list ["foo"] under the representative key, while the driver still filters
with its hardcoded list ["permaseed", "keep"] — the criteria the driver
uses are the same for this configuration as for the empty one, so they are
not the values the configuration determines. -/
theorem C4_counterexample :
    configDeterminedExcludeTags wConfig = some ["foo"] ∧
    FilterCriteria.excludeTags (mainFilterCriteria wConfig) = ["permaseed", "keep"] ∧
    mainFilterCriteria wConfig = mainFilterCriteria JsonValue.null := by
  refine ⟨by decide, rfl, rfl⟩

/-- C4 (amended): the driver's filter criteria are fixed constants — states
stalledUP, pausedUP, checkingUP, forcedUP, minimum seeding age 259200
seconds (3 days) and excluded tags permaseed and keep — independent of the
supplied configuration, and the driver's filtering stage gives the same
result under every configuration (src/check_and_make_disk_space.py lines
85-103: the criteria are bound to literals, the configuration feeds only
the client connection). -/
theorem C4_criteria_hardcoded (config : JsonValue) :
    mainFilterCriteria config = FilterCriteria.mk
      ["stalledUP", "pausedUP", "checkingUP", "forcedUP"] 259200
      ["permaseed", "keep"] ∧
    ∀ (config2 : JsonValue) (all_torrents : List Torrent),
      mainFilteredTorrents config all_torrents =
        mainFilteredTorrents config2 all_torrents :=
  ⟨rfl, fun _ _ => rfl⟩

end QbitChecker
